import Mathlib

/-!
Verification of the DID wallet simulator (src/main.go).

The program is a single-process simulation of a decentralized-identity
lifecycle: it builds a `DIDDocument`, registers it in a
`VerifiableDataRegistry` (a mutex-guarded `map[string]DIDDocument`), and
resolves it back through a `DIDResolver` that holds a pointer to that
registry.

Embedding conventions:
- The Go map `map[string]DIDDocument` is modelled as an association list
  without duplicate keys; `mapInsert` overwrites the existing entry in
  place, matching Go's `m[k] = v` assignment, and `mapLookup` matches the
  comma-ok read `v, ok := m[k]`.
- A Go map variable may be `nil` (the zero value of the map type), which
  behaves as an empty map on reads but panics on writes.  The `records`
  field is therefore an `Option` of an association list, `none` standing
  for the nil map.
- `GoResult` distinguishes a normal return from a runtime panic (the only
  panic reachable in the embedded code is the write to a nil map in
  `RegisterDID`).
- The `sync.Mutex` field `mu` carries no observable data: it only
  serializes the two method bodies, each of which holds the lock for its
  whole body (`Lock` followed by a deferred `Unlock`).  A concurrent
  execution of these methods is therefore observationally equal to some
  sequential interleaving of them, which is how the concurrency claim is
  rendered below (`registerAll` over an arbitrary order).
- Methods are embedded as functions from the receiver state to the result
  paired with the updated receiver state, so that the absence of a state
  effect is an explicit proof obligation rather than a typing accident.
- The Go byte slice `PublicKey []byte` is modelled as a list of naturals.
-/

namespace DIDWalletSimulator

/-- Embeds `VerificationMethod` (src/main.go lines 13-18): a named
cryptographic key with a type label, a controller and public-key bytes.
The Go field `Type` is rendered `Type'` because `Type` is reserved in
Lean. -/
structure VerificationMethod where
  ID : String
  Type' : String
  Controller : String
  PublicKey : List Nat
  deriving DecidableEq

/-- Embeds `DIDDocument` (src/main.go lines 21-28).  The two Go map
fields (`VerificationRelations map[string][]string` and
`ServiceEndPoints map[string]string`) are modelled as association
lists. -/
structure DIDDocument where
  Context : String
  ID : String
  Controller : String
  VerificationMethods : List VerificationMethod
  VerificationRelations : List (String × List String)
  ServiceEndPoints : List (String × String)
  deriving DecidableEq

/-- The zero value of `DIDDocument`: every string field empty, the slice
empty, and both maps nil (rendered as empty association lists).  This is
the value a failed Go map read produces. -/
def zeroDIDDocument : DIDDocument :=
  ⟨"", "", "", [], [], []⟩

/-- Lookup in the association-list rendering of a Go string-keyed map:
`mapLookup m k = some v` iff `v, true := m[k]` in Go. -/
def mapLookup {α : Type} (m : List (String × α)) (k : String) : Option α :=
  match m with
  | [] => none
  | (k', v') :: rest => if k' = k then some v' else mapLookup rest k

/-- Insertion in the association-list rendering of a Go string-keyed map:
`mapInsert m k v` is the map after the Go assignment `m[k] = v`.  An
existing binding of `k` is overwritten in place; otherwise the new
binding is appended. -/
def mapInsert {α : Type} (m : List (String × α)) (k : String) (v : α) :
    List (String × α) :=
  match m with
  | [] => [(k, v)]
  | (k', v') :: rest =>
      if k' = k then (k, v) :: rest else (k', v') :: mapInsert rest k v

/-- Embeds `VerifiableDataRegistry` (src/main.go lines 31-34).  The
`mu sync.Mutex` field carries no data and is not represented; `records`
is the guarded map, with `none` for the nil (zero-value) map. -/
structure VerifiableDataRegistry where
  records : Option (List (String × DIDDocument))
  deriving DecidableEq

/-- Embeds `DIDResolver` (src/main.go lines 37-39): it holds a pointer to
exactly one registry; the pointed-to registry state at call time is
stored by value here. -/
structure DIDResolver where
  registry : VerifiableDataRegistry
  deriving DecidableEq

/-- Outcome of running a Go function body: a normal return carrying the
returned values (and the updated shared state), or a runtime panic. -/
inductive GoResult (α : Type) where
  | ok : α → GoResult α
  | panic : GoResult α
  deriving DecidableEq

/-- Embeds `RegisterDID` (src/main.go lines 47-52):

```go
func (registry *VerifiableDataRegistry) RegisterDID(doc DIDDocument) error {
    registry.mu.Lock()
    defer registry.mu.Unlock()
    registry.records[doc.ID] = doc
    return nil
}
```

The result is the updated registry state paired with the returned
`error` (always `nil`, rendered `none`).  Writing to a nil map panics,
hence the `GoResult.panic` branch when `records` is `none`. -/
def RegisterDID (registry : VerifiableDataRegistry) (doc : DIDDocument) :
    GoResult (VerifiableDataRegistry × Option String) :=
  match registry.records with
  | none => GoResult.panic
  | some m => GoResult.ok (⟨some (mapInsert m doc.ID doc)⟩, none)

/-- Embeds `ResolveDID` (src/main.go lines 55-60):

```go
func (resolver *DIDResolver) ResolveDID(did string) (*DIDDocument, bool) {
    resolver.registry.mu.Lock()
    defer resolver.registry.mu.Unlock()
    doc, found := resolver.registry.records[did]
    return &doc, found
}
```

The comma-ok read of a missing key (or of a nil map) yields the zero
`DIDDocument` and `false`.  The returned `*DIDDocument` is the address
of the local `doc`, hence never a nil pointer: it is rendered as an
`Option DIDDocument` that the body always fills with `some`.  The
registry state seen through the pointer is returned unchanged alongside
the result, making the method's (absent) write effect explicit. -/
def ResolveDID (resolver : DIDResolver) (did : String) :
    (Option DIDDocument × Bool) × VerifiableDataRegistry :=
  match resolver.registry.records with
  | none => ((some zeroDIDDocument, false), resolver.registry)
  | some m =>
      match mapLookup m did with
      | some doc => ((some doc, true), resolver.registry)
      | none => ((some zeroDIDDocument, false), resolver.registry)

/-- Embeds the registry construction in `main` (src/main.go lines 89-91):
`VerifiableDataRegistry{records: make(map[string]DIDDocument)}` — a
freshly created, empty, initialized (non-nil) map. -/
def newVerifiableDataRegistry : VerifiableDataRegistry :=
  ⟨some []⟩

/-- Sequential composition of `RegisterDID` calls, one per document, in
the list's order.  Because each call holds the registry's mutex for its
whole body, a concurrent execution of these calls is observationally
equal to `registerAll` over some order of the documents. -/
def registerAll (registry : VerifiableDataRegistry)
    (docs : List DIDDocument) : GoResult VerifiableDataRegistry :=
  match docs with
  | [] => GoResult.ok registry
  | d :: rest =>
      match RegisterDID registry d with
      | GoResult.ok (r', _) => registerAll r' rest
      | GoResult.panic => GoResult.panic

/-- The pure map produced by registering `docs` in order, starting from
the map `m`. -/
def registerAllMap (m : List (String × DIDDocument))
    (docs : List DIDDocument) : List (String × DIDDocument) :=
  match docs with
  | [] => m
  | d :: rest => registerAllMap (mapInsert m d.ID d) rest

/-! ### Helper lemmas about the association-list map -/

theorem mapLookup_mapInsert_self {α : Type} (m : List (String × α))
    (k : String) (v : α) : mapLookup (mapInsert m k v) k = some v := by
  induction m with
  | nil => simp [mapInsert, mapLookup]
  | cons p rest ih =>
      obtain ⟨k', v'⟩ := p
      by_cases h : k' = k
      · simp [mapInsert, mapLookup, h]
      · simp [mapInsert, mapLookup, h, ih]

theorem mapLookup_mapInsert_ne {α : Type} (m : List (String × α))
    (k k₂ : String) (v : α) (h : k₂ ≠ k) :
    mapLookup (mapInsert m k v) k₂ = mapLookup m k₂ := by
  have hne : k ≠ k₂ := Ne.symm h
  induction m with
  | nil => simp [mapInsert, mapLookup, hne]
  | cons p rest ih =>
      obtain ⟨k', v'⟩ := p
      by_cases hk : k' = k
      · subst hk
        simp [mapInsert, mapLookup, hne]
      · simp [mapInsert, mapLookup, hk, ih]

theorem mapInsert_mapInsert_self {α : Type} (m : List (String × α))
    (k : String) (v w : α) :
    mapInsert (mapInsert m k v) k w = mapInsert m k w := by
  induction m with
  | nil => simp [mapInsert]
  | cons p rest ih =>
      obtain ⟨k', v'⟩ := p
      by_cases h : k' = k
      · simp [mapInsert, h]
      · simp [mapInsert, h, ih]

theorem registerAll_some (m : List (String × DIDDocument))
    (docs : List DIDDocument) :
    registerAll ⟨some m⟩ docs = GoResult.ok ⟨some (registerAllMap m docs)⟩ := by
  induction docs generalizing m with
  | nil => rfl
  | cons d rest ih => simp [registerAll, RegisterDID, registerAllMap, ih]

theorem mapLookup_registerAllMap_of_forall_ne
    (docs : List DIDDocument) (m : List (String × DIDDocument)) (k : String)
    (h : ∀ d ∈ docs, d.ID ≠ k) :
    mapLookup (registerAllMap m docs) k = mapLookup m k := by
  induction docs generalizing m with
  | nil => rfl
  | cons d rest ih =>
      have hd : d.ID ≠ k := h d (List.mem_cons_self d rest)
      have hrest : ∀ d' ∈ rest, d'.ID ≠ k :=
        fun d' hd' => h d' (List.mem_cons_of_mem d hd')
      calc mapLookup (registerAllMap (mapInsert m d.ID d) rest) k
          = mapLookup (mapInsert m d.ID d) k := ih (mapInsert m d.ID d) hrest
        _ = mapLookup m k := mapLookup_mapInsert_ne m d.ID k d (Ne.symm hd)

theorem mapLookup_registerAllMap_of_mem
    (docs : List DIDDocument) (m : List (String × DIDDocument))
    (d : DIDDocument) (hnodup : (docs.map DIDDocument.ID).Nodup)
    (hd : d ∈ docs) :
    mapLookup (registerAllMap m docs) d.ID = some d := by
  induction docs generalizing m with
  | nil => cases hd
  | cons x rest ih =>
      rw [List.map_cons, List.nodup_cons] at hnodup
      rcases List.mem_cons.mp hd with heq | hmem
      · subst heq
        have hne : ∀ d' ∈ rest, d'.ID ≠ d.ID := by
          intro d' hd' hcontra
          exact hnodup.1 (hcontra ▸ List.mem_map_of_mem DIDDocument.ID hd')
        calc mapLookup (registerAllMap (mapInsert m d.ID d) rest) d.ID
            = mapLookup (mapInsert m d.ID d) d.ID :=
              mapLookup_registerAllMap_of_forall_ne rest _ d.ID hne
          _ = some d := mapLookup_mapInsert_self m d.ID d
      · exact ih (mapInsert m x.ID x) hnodup.2 hmem

/-! ### Concrete values used by witnesses, mirroring `main`
    (src/main.go lines 70-92) -/

/-- The verification method built in `main`, with illustrative public-key
bytes standing in for the marshalled ECDSA key. -/
def exampleKeyMethod : VerificationMethod :=
  ⟨"key1", "EcdsaSecp256k1VerificationKey2019", "subject1", [4, 1, 2]⟩

/-- The document built in `main` for `did:example:subject1`. -/
def exampleDoc : DIDDocument :=
  ⟨"https://www.w3.org/ns/did/v1", "did:example:subject1", "subject1",
    [exampleKeyMethod], [("authentication", ["key1"])],
    [("profile", "https://profile.example.com/subject1")]⟩

/-- A second document under the same identifier as `exampleDoc` but with
a different controller, for the overwrite scenario. -/
def exampleDoc2 : DIDDocument :=
  ⟨"https://www.w3.org/ns/did/v1", "did:example:subject1", "subject2",
    [], [], []⟩

/-- A document under a different identifier, for the frame and
concurrency scenarios. -/
def exampleDocB : DIDDocument :=
  ⟨"https://www.w3.org/ns/did/v1", "did:example:other", "other",
    [], [], []⟩

/-! ### Claim theorems -/

/-- C1: Round-trip.  For every document `d` and every registry state with
an initialized records map (as every registry built by the program has,
src/main.go lines 89-91), `RegisterDID d` returns normally with a nil
error, and `ResolveDID d.ID` on a resolver bound to the updated registry
returns found `true` and a document equal to `d`. -/
theorem RegisterDID_ResolveDID_roundtrip (m : List (String × DIDDocument))
    (d : DIDDocument) :
    ∃ r' : VerifiableDataRegistry,
      RegisterDID ⟨some m⟩ d = GoResult.ok (r', none) ∧
      (ResolveDID ⟨r'⟩ d.ID).1 = (some d, true) := by
  refine ⟨⟨some (mapInsert m d.ID d)⟩, rfl, ?_⟩
  simp [ResolveDID, mapLookup_mapInsert_self]

/-- C2: Resolve correctness / not-found.  `ResolveDID id` returns exactly
the entry stored in the bound registry's map: found `true` with the
stored document when `id` is a key of the map, and found `false` (with
the zero document) when it is not; in particular every lookup on the
freshly created empty registry of `main` reports not-found. -/
theorem ResolveDID_exact (m : List (String × DIDDocument)) (id : String) :
    ((ResolveDID ⟨⟨some m⟩⟩ id).1 =
        match mapLookup m id with
        | some d => (some d, true)
        | none => (some zeroDIDDocument, false)) ∧
      (ResolveDID ⟨newVerifiableDataRegistry⟩ id).1
        = (some zeroDIDDocument, false) := by
  constructor
  · cases h : mapLookup m id <;> simp [ResolveDID, h]
  · rfl

/-- C3: Last-write-wins overwrite.  Registering `d1` and then `d2` under
the same identifier, then resolving that identifier, returns `d2` —
never `d1` and never a merge of the two. -/
theorem RegisterDID_lastWriteWins (m : List (String × DIDDocument))
    (d1 d2 : DIDDocument) (h : d1.ID = d2.ID) :
    ∃ r1 r2 : VerifiableDataRegistry,
      RegisterDID ⟨some m⟩ d1 = GoResult.ok (r1, none) ∧
      RegisterDID r1 d2 = GoResult.ok (r2, none) ∧
      (ResolveDID ⟨r2⟩ d1.ID).1 = (some d2, true) := by
  refine ⟨⟨some (mapInsert m d1.ID d1)⟩,
    ⟨some (mapInsert (mapInsert m d1.ID d1) d2.ID d2)⟩, rfl, rfl, ?_⟩
  rw [h]
  simp [ResolveDID, mapLookup_mapInsert_self]

/-- Witness for C3: the overwrite scenario at the program's own document
and a same-identifier variant, starting from the empty registry. -/
theorem RegisterDID_lastWriteWins_witness :
    ∃ r1 r2 : VerifiableDataRegistry,
      RegisterDID ⟨some []⟩ exampleDoc = GoResult.ok (r1, none) ∧
      RegisterDID r1 exampleDoc2 = GoResult.ok (r2, none) ∧
      (ResolveDID ⟨r2⟩ exampleDoc.ID).1 = (some exampleDoc2, true) :=
  RegisterDID_lastWriteWins [] exampleDoc exampleDoc2 rfl

/-- C4: Independence of keys.  Registering `d` leaves `ResolveDID idB`
unchanged for every identifier `idB ≠ d.ID`, and every map entry other
than the one keyed by `d.ID` is preserved verbatim. -/
theorem RegisterDID_frame (m : List (String × DIDDocument))
    (d : DIDDocument) (idB : String) (h : idB ≠ d.ID) :
    ∃ r' : VerifiableDataRegistry,
      RegisterDID ⟨some m⟩ d = GoResult.ok (r', none) ∧
      (ResolveDID ⟨r'⟩ idB).1 = (ResolveDID ⟨⟨some m⟩⟩ idB).1 ∧
      mapLookup (mapInsert m d.ID d) idB = mapLookup m idB := by
  have hlk : mapLookup (mapInsert m d.ID d) idB = mapLookup m idB :=
    mapLookup_mapInsert_ne m d.ID idB d h
  refine ⟨⟨some (mapInsert m d.ID d)⟩, rfl, ?_, hlk⟩
  cases hcase : mapLookup m idB <;> simp [ResolveDID, hlk, hcase]

/-- Witness for C4: registering the program's document does not disturb
the entry under the other identifier. -/
theorem RegisterDID_frame_witness :
    ∃ r' : VerifiableDataRegistry,
      RegisterDID ⟨some [("did:example:other", exampleDocB)]⟩ exampleDoc
          = GoResult.ok (r', none) ∧
      (ResolveDID ⟨r'⟩ "did:example:other").1 =
        (ResolveDID ⟨⟨some [("did:example:other", exampleDocB)]⟩⟩
          "did:example:other").1 ∧
      mapLookup
          (mapInsert [("did:example:other", exampleDocB)]
            exampleDoc.ID exampleDoc) "did:example:other"
        = mapLookup [("did:example:other", exampleDocB)]
            "did:example:other" :=
  RegisterDID_frame [("did:example:other", exampleDocB)] exampleDoc
    "did:example:other" (by decide)

/-- C5: Registration cannot fail.  Whenever `RegisterDID` returns (on any
registry state and any document), the returned Go `error` is nil: there
is no rejectable precondition and no error outcome. -/
theorem RegisterDID_error_always_nil (r : VerifiableDataRegistry)
    (d : DIDDocument) (out : VerifiableDataRegistry × Option String)
    (h : RegisterDID r d = GoResult.ok out) : out.2 = none := by
  obtain ⟨records⟩ := r
  cases records with
  | none => simp [RegisterDID] at h
  | some m =>
      injection h with h'
      rw [← h']

/-- Witness for C5: registering the program's document in the empty
registry returns the nil error. -/
theorem RegisterDID_error_always_nil_witness :
    ((⟨some [("did:example:subject1", exampleDoc)]⟩ : VerifiableDataRegistry),
      (none : Option String)).2 = none :=
  RegisterDID_error_always_nil ⟨some []⟩ exampleDoc
    (⟨some [("did:example:subject1", exampleDoc)]⟩, none) rfl

/-- C6: Resolve is read-only.  For every resolver and every identifier,
`ResolveDID` leaves the bound registry's entire state (including a nil
records map) unchanged. -/
theorem ResolveDID_readonly (r : DIDResolver) (id : String) :
    (ResolveDID r id).2 = r.registry := by
  obtain ⟨⟨records⟩⟩ := r
  cases records with
  | none => rfl
  | some m => cases h : mapLookup m id <;> simp [ResolveDID, h]

/-- C7: Concurrent registration safety.  Each `RegisterDID` body holds
the registry's mutex from entry to return, so a concurrent execution of
N registrations is observationally equal to some sequential interleaving
of them; `docs` here ranges over every such interleaving.  For every
order of registering documents with pairwise-distinct identifiers,
every one of them is independently resolvable afterward — no lost
updates. -/
theorem RegisterDID_concurrent_no_lost_updates
    (m : List (String × DIDDocument)) (docs : List DIDDocument)
    (hnodup : (docs.map DIDDocument.ID).Nodup)
    (d : DIDDocument) (hd : d ∈ docs) :
    ∃ r' : VerifiableDataRegistry,
      registerAll ⟨some m⟩ docs = GoResult.ok r' ∧
      (ResolveDID ⟨r'⟩ d.ID).1 = (some d, true) := by
  refine ⟨⟨some (registerAllMap m docs)⟩, registerAll_some m docs, ?_⟩
  have hlk := mapLookup_registerAllMap_of_mem docs m d hnodup hd
  simp [ResolveDID, hlk]

/-- Witness for C7: registering two documents with distinct identifiers
leaves both resolvable; shown for the second one. -/
theorem RegisterDID_concurrent_no_lost_updates_witness :
    ∃ r' : VerifiableDataRegistry,
      registerAll ⟨some []⟩ [exampleDoc, exampleDocB] = GoResult.ok r' ∧
      (ResolveDID ⟨r'⟩ exampleDocB.ID).1 = (some exampleDocB, true) :=
  RegisterDID_concurrent_no_lost_updates [] [exampleDoc, exampleDocB]
    (by decide) exampleDocB (by decide)

/-- C8: Not-found still yields a document value.  For every identifier
that is not a key of the registry's map (including every identifier when
the map is nil), `ResolveDID` returns found `false` paired with a
non-nil pointer to the zero-value `DIDDocument` — never a nil
pointer. -/
theorem ResolveDID_notFound_zero (r : VerifiableDataRegistry) (id : String)
    (h : ∀ m, r.records = some m → mapLookup m id = none) :
    (ResolveDID ⟨r⟩ id).1 = (some zeroDIDDocument, false) := by
  obtain ⟨records⟩ := r
  cases records with
  | none => rfl
  | some m =>
      have hm := h m rfl
      simp [ResolveDID, hm]

/-- Witness for C8: resolving a never-registered identifier on the fresh
empty registry yields the zero document and found `false`. -/
theorem ResolveDID_notFound_zero_witness :
    (ResolveDID ⟨newVerifiableDataRegistry⟩ "did:example:missing").1
      = (some zeroDIDDocument, false) :=
  ResolveDID_notFound_zero newVerifiableDataRegistry "did:example:missing"
    (fun m hm => by injection hm with h'; rw [← h']; rfl)

/-- C9: Initialized-map precondition for registration.  With an
initialized records map (as produced by `make` in `main`), `RegisterDID`
always returns normally with a nil error; on the zero-value registry
(nil records map) the map write panics. -/
theorem RegisterDID_initialized_total_nil_panics :
    (∀ (m : List (String × DIDDocument)) (d : DIDDocument),
        ∃ r' : VerifiableDataRegistry,
          RegisterDID ⟨some m⟩ d = GoResult.ok (r', none)) ∧
      ∀ d : DIDDocument, RegisterDID ⟨none⟩ d = GoResult.panic :=
  ⟨fun m d => ⟨⟨some (mapInsert m d.ID d)⟩, rfl⟩, fun _ => rfl⟩

/-- C10: Registration is idempotent.  Registering the same document twice
in succession yields exactly the registry state of registering it once
(both calls returning the nil error). -/
theorem RegisterDID_idempotent (m : List (String × DIDDocument))
    (d : DIDDocument) :
    ∃ r1 : VerifiableDataRegistry,
      RegisterDID ⟨some m⟩ d = GoResult.ok (r1, none) ∧
      RegisterDID r1 d = GoResult.ok (r1, none) := by
  refine ⟨⟨some (mapInsert m d.ID d)⟩, rfl, ?_⟩
  simp [RegisterDID, mapInsert_mapInsert_self]

end DIDWalletSimulator
